import Mathlib

/-!
Formal model of the IoT Management System: the reservation lifecycle engine,
the per-device command queue, and the dashboard client logic.

The reservation engine and command queue are modelled from the design
specification (the backend sources are not part of this tree); the client-side
definitions are translated from the dashboard scripts
(`src/unnamed/part_000`, `src/frontend/public/app.js`).
-/

/-- Role of an authenticated principal (`admin` | `user`). -/
inductive Role where
  | admin
  | user
deriving DecidableEq, Repr

/-- Modelled from the spec: User record (§3) — id, username, role, active flag,
set of permitted resource ids. -/
structure User where
  id : Nat
  username : String
  role : Role
  is_active : Bool
  permitted_resource_ids : List Nat
deriving DecidableEq, Repr

/-- Derived resource status (`available` | `reserved` | `maintenance`). -/
inductive ResourceStatus where
  | available
  | reserved
  | maintenance
deriving DecidableEq, Repr

/-- Modelled from the spec: Resource record (§3) — catalog entry with an
optional linked device id and a derived status. -/
structure Resource where
  id : Nat
  name : String
  type : String
  location : String
  capacity : Nat
  device_id : Option Nat
  status : ResourceStatus
deriving DecidableEq, Repr

/-- Device type, a closed tagged variant (`lock` | `sensor` | other). -/
inductive DeviceType where
  | lock
  | sensor
  | other
deriving DecidableEq, Repr

/-- Modelled from the spec: Device record (§3). -/
structure Device where
  id : Nat
  name : String
  type : DeviceType
  status : String
  resource_id : Option Nat
deriving DecidableEq, Repr

/-- Reservation lifecycle status (§3):
`scheduled → active → (completed | expired | cancelled)`. -/
inductive ReservationStatus where
  | scheduled
  | active
  | completed
  | expired
  | cancelled
deriving DecidableEq, Repr

/-- Modelled from the spec: Reservation record (§3). Timestamps are naturals
(minutes); the interval claimed on the resource is `[start_time, expires_at)`. -/
structure Reservation where
  id : Nat
  resource_id : Nat
  user_id : Nat
  created_at : Nat
  start_time : Nat
  expires_at : Nat
  status : ReservationStatus
  notes : String
  released_by_admin : Bool
deriving DecidableEq, Repr

/-- Actuation command kind (`lock` | `unlock` | other). -/
inductive CommandKind where
  | lock
  | unlock
  | other
deriving DecidableEq, Repr

/-- Modelled from the spec: DeviceCommand record (§3) — one row of the
per-device FIFO, with a consumed flag set atomically on fetch. -/
structure DeviceCommand where
  id : Nat
  device_id : Nat
  command : CommandKind
  enqueued_at : Nat
  consumed : Bool
deriving DecidableEq, Repr

/-- Result of an audited action (`success` | `denied` | `error`). -/
inductive AuditResult where
  | success
  | denied
  | error
deriving DecidableEq, Repr

/-- Modelled from the spec: AuditLogEntry record (§3); `user_id` is `none` for
system-triggered actions. -/
structure AuditLogEntry where
  timestamp : Nat
  user_id : Option Nat
  action : String
  resource_id : Option Nat
  device_id : Option Nat
  reservation_id : Option Nat
  result : AuditResult
  detail : String
deriving DecidableEq, Repr

/-- Error taxonomy of the core (§7). -/
inductive ApiError where
  | notFound
  | permissionDenied
  | conflict
  | invalidState
  | invalidDuration
  | invalidInput
deriving DecidableEq, Repr

/-- Modelled from the spec: the shared mutable state owned by the core — the
registry, the reservation store, the per-device command rows (a single list,
FIFO per device by position), and the append-only audit log. -/
structure SysState where
  resources : List Resource
  devices : List Device
  reservations : List Reservation
  commands : List DeviceCommand
  audit : List AuditLogEntry
  next_reservation_id : Nat
  next_command_id : Nat
deriving DecidableEq, Repr

/-- Look up a resource by id. -/
def findResource (s : SysState) (rid : Nat) : Option Resource :=
  s.resources.find? (fun r => r.id == rid)

/-- Look up a device by id. -/
def findDevice (s : SysState) (did : Nat) : Option Device :=
  s.devices.find? (fun d => d.id == did)

/-- Modelled from the spec: the device id of the `lock` device linked to a
resource, when there is one (§4.1 command eligibility). -/
def linkedLockDevice (s : SysState) (rid : Nat) : Option Nat :=
  match findResource s rid with
  | none => none
  | some res =>
    match res.device_id with
    | none => none
    | some did =>
      match findDevice s did with
      | none => none
      | some dev => if dev.type = DeviceType.lock then some did else none

/-- Modelled from the spec: Access Guard (§4.4) — true if the user is an admin
or the resource id is in the user's permitted set. -/
def can_access (u : User) (rid : Nat) : Bool :=
  u.role == Role.admin || u.permitted_resource_ids.contains rid

/-- Modelled from the spec: Access Guard (§4.4) — true if the target is unset,
equals the caller, or the caller is an admin. -/
def can_act_for (u : User) (target : Option Nat) : Bool :=
  match target with
  | none => true
  | some t => t == u.id || u.role == Role.admin

/-- Half-open interval overlap test (§4.1): touching boundaries do not
conflict. -/
def overlaps (s1 e1 s2 e2 : Nat) : Bool :=
  decide (s1 < e2) && decide (s2 < e1)

/-- Modelled from the spec: configurable maximum reservation duration. -/
def max_duration_minutes : Nat := 480

/-- Modelled from the spec: small tolerance allowed for a start time in the
past. -/
def start_time_tolerance : Nat := 5

/-- Modelled from the spec: conflict test (§4.1) — some reservation on the
resource with status `scheduled` or `active` overlaps the requested
half-open interval. -/
def hasConflict (s : SysState) (rid : Nat) (reqStart reqEnd : Nat) : Bool :=
  s.reservations.any (fun r =>
    r.resource_id == rid
      && (r.status == ReservationStatus.scheduled || r.status == ReservationStatus.active)
      && overlaps r.start_time r.expires_at reqStart reqEnd)

/-- Modelled from the spec: derived resource status (invariant R1) —
`reserved` iff some reservation on the resource is `active`, else
`available`. -/
def derivedStatus (reservations : List Reservation) (rid : Nat) : ResourceStatus :=
  if reservations.any (fun r => r.resource_id == rid && r.status == ReservationStatus.active)
  then ResourceStatus.reserved else ResourceStatus.available

/-- Modelled from the spec: recompute one resource's derived status
(`maintenance` is set only by explicit admin action and is preserved). -/
def recomputeResource (reservations : List Reservation) (res : Resource) : Resource :=
  if res.status = ResourceStatus.maintenance then res
  else { res with status := derivedStatus reservations res.id }

/-- Modelled from the spec: append a command at the tail of the device's FIFO
(§4.3); no deduplication. -/
def enqueueCommand (s : SysState) (did : Nat) (cmd : CommandKind) (now : Nat) : SysState :=
  { s with
    commands := s.commands ++
      [{ id := s.next_command_id, device_id := did, command := cmd,
         enqueued_at := now, consumed := false }],
    next_command_id := s.next_command_id + 1 }

/-- Modelled from the spec: a failed validation/permission check appends a
`denied` audit entry and leaves every other component untouched (§7, scenario
F). -/
def denyResult (s : SysState) (now : Nat) (uid : Nat) (act : String) (rid : Nat)
    (detail : String) (e : ApiError) : SysState × Except ApiError Reservation :=
  ({ s with
     audit := s.audit ++
       [{ timestamp := now, user_id := some uid, action := act,
          resource_id := some rid, device_id := none, reservation_id := none,
          result := AuditResult.denied, detail := detail }] },
   Except.error e)

/-- Modelled from the spec: effect of a validated reserve request (§4.1) —
insert the reservation row, recompute the derived resource statuses, enqueue
an `unlock` command when the reservation is immediately `active` and the
resource has a linked `lock` device, and append a `success` audit entry. -/
def applyCreate (s : SysState) (rid : Nat) (u : User) (newRes : Reservation)
    (now : Nat) : SysState :=
  let s1 := { s with reservations := s.reservations ++ [newRes],
                     next_reservation_id := s.next_reservation_id + 1,
                     resources := s.resources.map
                       (recomputeResource (s.reservations ++ [newRes])) }
  let s2 :=
    if newRes.status = ReservationStatus.active then
      match linkedLockDevice s rid with
      | some did => enqueueCommand s1 did CommandKind.unlock now
      | none => s1
    else s1
  { s2 with
    audit := s2.audit ++
      [{ timestamp := now, user_id := some u.id, action := "reserve",
         resource_id := some rid, device_id := none,
         reservation_id := some newRes.id, result := AuditResult.success,
         detail := "reservation created" }] }

/-- Modelled from the spec: the reservation row built by a reserve request —
`scheduled` when the start time is in the future, else `active`
immediately (§4.1). -/
def newReservation (s : SysState) (rid : Nat) (u : User) (target_user_id : Option Nat)
    (start_time : Option Nat) (duration_minutes : Nat) (now : Nat) : Reservation :=
  { id := s.next_reservation_id, resource_id := rid,
    user_id := target_user_id.getD u.id, created_at := now,
    start_time := start_time.getD now,
    expires_at := start_time.getD now + duration_minutes,
    status := if now < start_time.getD now then ReservationStatus.scheduled
              else ReservationStatus.active,
    notes := "", released_by_admin := false }

/-- Modelled from the spec: `create_reservation` (§4.1). Checks the Access
Guard, the acting-for rule, the duration bound, the start-time tolerance and
the overlap conflict, then applies the insert effect. -/
def createReservation (s : SysState) (rid : Nat) (u : User) (target_user_id : Option Nat)
    (start_time : Option Nat) (duration_minutes : Nat) (now : Nat) :
    SysState × Except ApiError Reservation :=
  match findResource s rid with
  | none => denyResult s now u.id "reserve" rid "unknown resource" ApiError.notFound
  | some _res =>
    if can_access u rid = false then
      denyResult s now u.id "reserve" rid "no permission" ApiError.permissionDenied
    else if can_act_for u target_user_id = false then
      denyResult s now u.id "reserve" rid "cannot act for target user" ApiError.permissionDenied
    else if duration_minutes = 0 ∨ max_duration_minutes < duration_minutes then
      denyResult s now u.id "reserve" rid "duration out of range" ApiError.invalidDuration
    else if start_time.getD now + start_time_tolerance < now then
      denyResult s now u.id "reserve" rid "start time in the past" ApiError.invalidInput
    else if hasConflict s rid (start_time.getD now)
        (start_time.getD now + duration_minutes) = true then
      denyResult s now u.id "reserve" rid "overlapping reservation" ApiError.conflict
    else
      (applyCreate s rid u
        (newReservation s rid u target_user_id start_time duration_minutes now) now,
       Except.ok (newReservation s rid u target_user_id start_time duration_minutes now))

/-- Modelled from the spec: effect of a validated release (§4.1) — the
target's transition `active → completed` with `released_by_admin` recorded,
derived resource statuses recomputed, a `lock` command enqueued when the
resource has a linked `lock` device, and a `success` audit entry appended. -/
def applyRelease (s : SysState) (rid : Nat) (u : User) (force : Bool)
    (target : Reservation) (now : Nat) : SysState :=
  let reservations := s.reservations.map (fun r =>
    if r.id == target.id && r.status == ReservationStatus.active then
      { r with status := ReservationStatus.completed, released_by_admin := force }
    else r)
  let s1 := { s with reservations := reservations,
                     resources := s.resources.map (recomputeResource reservations) }
  let s2 :=
    match linkedLockDevice s rid with
    | some did => enqueueCommand s1 did CommandKind.lock now
    | none => s1
  { s2 with
    audit := s2.audit ++
      [{ timestamp := now, user_id := some u.id, action := "release",
         resource_id := some rid, device_id := none,
         reservation_id := some target.id, result := AuditResult.success,
         detail := "reservation released" }] }

/-- Modelled from the spec: `release_reservation` (§4.1). A non-admin may
release only their own active reservation; `force` is accepted only from an
admin and releases any user's active reservation, recording
`released_by_admin`. The transition is `active → completed`; a `lock` command
is enqueued when the resource has a linked `lock` device. -/
def releaseReservation (s : SysState) (rid : Nat) (u : User) (force : Bool) (now : Nat) :
    SysState × Except ApiError Reservation :=
  match findResource s rid with
  | none => denyResult s now u.id "release" rid "unknown resource" ApiError.notFound
  | some _res =>
    if force = true ∧ u.role ≠ Role.admin then
      denyResult s now u.id "release" rid "force release requires admin" ApiError.permissionDenied
    else
      match s.reservations.find? (fun r =>
          r.resource_id == rid && r.status == ReservationStatus.active
            && (force || r.user_id == u.id)) with
      | none =>
        denyResult s now u.id "release" rid "no active reservation" ApiError.invalidState
      | some target =>
        (applyRelease s rid u force target now,
         Except.ok { target with status := ReservationStatus.completed,
                                 released_by_admin := force })

/-- Modelled from the spec: lifecycle state machine edge set (§4.1) —
`scheduled →{activate}→ active`, `scheduled →{cancel}→ cancelled`,
`active →{release}→ completed`, `active →{timeout}→ expired`; the terminal
states have no outgoing edges. -/
def allowedTransition : ReservationStatus → ReservationStatus → Bool
  | ReservationStatus.scheduled, ReservationStatus.active => true
  | ReservationStatus.scheduled, ReservationStatus.cancelled => true
  | ReservationStatus.active, ReservationStatus.completed => true
  | ReservationStatus.active, ReservationStatus.expired => true
  | _, _ => false

/-- Modelled from the spec: effect of a validated reservation status update —
rewrite the target's status along an allowed state-machine edge, recompute
derived resource statuses and append a `success` audit entry. -/
def applyUpdateStatus (s : SysState) (reservation_id : Nat) (u : User)
    (target : Reservation) (new_status : ReservationStatus) (now : Nat) : SysState :=
  let reservations := s.reservations.map (fun r =>
    if r.id == reservation_id && allowedTransition r.status new_status then
      { r with status := new_status }
    else r)
  let s1 := { s with reservations := reservations,
                     resources := s.resources.map (recomputeResource reservations) }
  { s1 with
    audit := s1.audit ++
      [{ timestamp := now, user_id := some u.id, action := "update_reservation",
         resource_id := some target.resource_id, device_id := none,
         reservation_id := some reservation_id, result := AuditResult.success,
         detail := "status updated" }] }

/-- Modelled from the spec: the admin reservation status update honours the
lifecycle state machine (§4.1); an update whose source state is terminal
fails with `InvalidState` and mutates nothing. The backend route itself is
not part of this tree; it is invoked by the dashboard's
`updateReservationStatus` (PATCH `/reservations/id`). -/
def updateReservationStatus (s : SysState) (reservation_id : Nat) (u : User)
    (new_status : ReservationStatus) (now : Nat) :
    SysState × Except ApiError Reservation :=
  if u.role ≠ Role.admin then
    denyResult s now u.id "update_reservation" reservation_id "admin role required"
      ApiError.permissionDenied
  else
    match s.reservations.find? (fun r => r.id == reservation_id) with
    | none =>
      denyResult s now u.id "update_reservation" reservation_id "unknown reservation"
        ApiError.notFound
    | some target =>
      if allowedTransition target.status new_status = false then
        denyResult s now u.id "update_reservation" reservation_id "transition not allowed"
          ApiError.invalidState
      else
        (applyUpdateStatus s reservation_id u target new_status now,
         Except.ok { target with status := new_status })

/-- Due `scheduled` reservations: status `scheduled` and start time reached. -/
def dueScheduled (s : SysState) (now : Nat) : List Reservation :=
  s.reservations.filter (fun r =>
    r.status == ReservationStatus.scheduled && decide (r.start_time ≤ now))

/-- Earliest-created tie-break order (ties broken by id). -/
def beatsOrEq (a b : Reservation) : Bool :=
  decide (a.created_at < b.created_at)
    || (a.created_at == b.created_at && decide (a.id ≤ b.id))

/-- Modelled from the spec: `activate_scheduled_reservations` (§4.1, sweeper).
Every due `scheduled` reservation transitions to `active`; when several are
due on the same resource only the earliest-created one activates and the
others are cancelled. An `unlock` command is enqueued for each activation on
a resource with a linked `lock` device; system audit entries are appended. -/
def activateScheduled (s : SysState) (now : Nat) : SysState :=
  let due := dueScheduled s now
  let isWinner := fun (r : Reservation) =>
    due.all (fun r2 => r2.resource_id != r.resource_id || beatsOrEq r r2)
  let reservations := s.reservations.map (fun r =>
    if r.status == ReservationStatus.scheduled && decide (r.start_time ≤ now) then
      if isWinner r then { r with status := ReservationStatus.active }
      else { r with status := ReservationStatus.cancelled }
    else r)
  let s1 := { s with reservations := reservations,
                     resources := s.resources.map (recomputeResource reservations) }
  let s2 := (due.filter isWinner).foldl (fun acc r =>
    match linkedLockDevice s r.resource_id with
    | some did => enqueueCommand acc did CommandKind.unlock now
    | none => acc) s1
  { s2 with
    audit := s2.audit ++ due.map (fun r =>
      { timestamp := now, user_id := none, action := "activate",
        resource_id := some r.resource_id, device_id := none,
        reservation_id := some r.id, result := AuditResult.success,
        detail := if isWinner r then "activated" else "cancelled duplicate" }) }

/-- Modelled from the spec: `expire_overdue_reservations` (§4.1, sweeper).
Every `active` reservation whose expiry time has passed transitions to
`expired`; resource statuses are recomputed, a `lock` command is enqueued
for each expiry on a resource with a linked `lock` device, and system audit
entries are appended. -/
def expireOverdue (s : SysState) (now : Nat) : SysState :=
  let overdue := s.reservations.filter (fun r =>
    r.status == ReservationStatus.active && decide (r.expires_at ≤ now))
  let reservations := s.reservations.map (fun r =>
    if r.status == ReservationStatus.active && decide (r.expires_at ≤ now) then
      { r with status := ReservationStatus.expired }
    else r)
  let s1 := { s with reservations := reservations,
                     resources := s.resources.map (recomputeResource reservations) }
  let s2 := overdue.foldl (fun acc r =>
    match linkedLockDevice s r.resource_id with
    | some did => enqueueCommand acc did CommandKind.lock now
    | none => acc) s1
  { s2 with
    audit := s2.audit ++ overdue.map (fun r =>
      { timestamp := now, user_id := none, action := "expire",
        resource_id := some r.resource_id, device_id := none,
        reservation_id := some r.id, result := AuditResult.success,
        detail := "reservation expired" }) }

/-- Modelled from the spec: pop the oldest unconsumed command of a device from
the command rows, marking it consumed in place (§4.3 `fetch_next`). -/
def popNextCommand (did : Nat) : List DeviceCommand → Option DeviceCommand × List DeviceCommand
  | [] => (none, [])
  | c :: rest =>
    if c.device_id = did ∧ c.consumed = false then
      (some c, { c with consumed := true } :: rest)
    else
      ((popNextCommand did rest).1, c :: (popNextCommand did rest).2)

/-- Modelled from the spec: `fetch_next(device_id)` (§4.3) — atomically pops
the oldest unconsumed command of the device and marks it consumed in the same
operation; yields `none` (an explicit no-command result, not an error) when
the device's queue is empty. -/
def fetch_next_command (s : SysState) (did : Nat) : Option DeviceCommand × SysState :=
  ((popNextCommand did s.commands).1,
   { s with commands := (popNextCommand did s.commands).2 })

/-- Drain a device's queue by repeatedly calling `fetch_next_command`; the
fuel bounds the number of fetches. -/
def drainCommands : Nat → SysState → Nat → List DeviceCommand
  | 0, _, _ => []
  | Nat.succ n, s, did =>
    match fetch_next_command s did with
    | (none, _) => []
    | (some c, s2) => c :: drainCommands n s2 did

/-- A command row still pending delivery to a device: addressed to it and not
yet consumed. -/
def pendingFor (did : Nat) (c : DeviceCommand) : Bool :=
  c.device_id == did && !c.consumed

/-- A reservation status is terminal when it is `completed`, `expired` or
`cancelled`. -/
def isTerminal (st : ReservationStatus) : Bool :=
  st == ReservationStatus.completed || st == ReservationStatus.expired
    || st == ReservationStatus.cancelled

/-- Resource object as the dashboard scripts see it. The prototype dashboard
(`class IoTApp`) reads `available` and `reserved_by`; the websocket dashboard
reads `status`. -/
structure ClientResource where
  id : Nat
  available : Bool
  reserved_by : Option Nat
  status : ResourceStatus
deriving DecidableEq, Repr

/-- Control rendered for a resource card in the prototype dashboard. -/
inductive ClientControl where
  | reserveButton
  | releaseButton
  | unavailableLabel
deriving DecidableEq, Repr

/-- `renderResourceActions` of the prototype dashboard
(`src/unnamed/part_000` lines 311-319, `src/frontend/public/app.js` lines
222-238): a `Reservar` button when the resource is available, a `Liberar`
button when the viewing user is the one who reserved it, otherwise an
`Indisponivel` label. -/
def renderResourceActions (resource : ClientResource) (userId : Nat) : ClientControl :=
  if resource.available then ClientControl.reserveButton
  else if resource.reserved_by == some userId then ClientControl.releaseButton
  else ClientControl.unavailableLabel

/-- Enabled state of the `Reservar` button in the websocket dashboard's
`renderResources` (`src/unnamed/part_000` line 1162): disabled unless the
resource status is `available`. The viewer id is in scope in the script but
not consulted. -/
def reserveButtonEnabled (resource : ClientResource) (_viewerId : Nat) : Bool :=
  resource.status == ResourceStatus.available

/-- Enabled state of the `Liberar` button in the websocket dashboard's
`renderResources` (`src/unnamed/part_000` line 1163): disabled unless the
resource status is `reserved`. The viewer id is in scope in the script but
not consulted. -/
def releaseButtonEnabled (resource : ClientResource) (_viewerId : Nat) : Bool :=
  resource.status == ResourceStatus.reserved

/-- One call made by the websocket dashboard: a cache-refreshing query, a
socket operation, or the targeted resource re-fetch `syncResource`. -/
inductive ClientCall where
  | loadResources
  | loadDevices
  | loadActiveReservations
  | loadHistory
  | loadStats
  | loadUsers
  | loadAdminReservations
  | loadAudit
  | syncResource (rid : Option Nat)
  | closeSocket
  | openSocket
deriving DecidableEq, Repr

/-- Calls issued by `loadAll` (`src/unnamed/part_000` lines 1745-1750): the
five user-facing queries, plus the three admin queries for an admin role. -/
def loadAllCalls (isAdmin : Bool) : List ClientCall :=
  [ClientCall.loadResources, ClientCall.loadDevices, ClientCall.loadActiveReservations,
   ClientCall.loadHistory, ClientCall.loadStats] ++
    (if isAdmin then
      [ClientCall.loadUsers, ClientCall.loadAdminReservations, ClientCall.loadAudit]
     else [])

/-- Calls issued by `connectWebSocket` (`src/unnamed/part_000` lines
1690-1692): close any previous socket, open a new one, install the handlers.
No query is issued. -/
def connectWebSocketCalls (socketOpen : Bool) : List ClientCall :=
  (if socketOpen then [ClientCall.closeSocket] else []) ++ [ClientCall.openSocket]

/-- Calls issued by the `ws.onclose` handler (`src/unnamed/part_000` lines
1725-1727): when a token is present, schedule `connectWebSocket` after 5
seconds; otherwise nothing. -/
def onSocketCloseCalls (hasToken : Bool) (socketOpen : Bool) : List ClientCall :=
  if hasToken then connectWebSocketCalls socketOpen else []

/-- Calls issued by `init` (`src/unnamed/part_000` lines 1752-1762) for an
authenticated session: `loadAll` then `connectWebSocket`. -/
def initCalls (isAdmin : Bool) : List ClientCall :=
  loadAllCalls isAdmin ++ connectWebSocketCalls false

/-- Client caches held by the websocket dashboard (`state.resources`,
`state.devices`, `state.reservations`). Devices and reservations are kept as
id lists; only the resources cache is mutated synchronously by the message
handler. -/
structure ClientCaches where
  resources : List ClientResource
  devices : List Nat
  reservations : List Nat
deriving DecidableEq, Repr

/-- An incoming websocket frame as the handler observes it: whether
`JSON.parse` succeeds, the optional `type` field and the optional
`resourceId` field of the parsed object. -/
structure WsMessage where
  parses : Bool
  type : Option String
  resourceId : Option Nat
deriving DecidableEq, Repr

/-- The event types the `ws.onmessage` switch handles
(`src/unnamed/part_000` lines 1697-1717). -/
def handledEventTypes : List String :=
  ["resource.updated", "resource.created", "resource.deleted",
   "device.updated", "device.created", "device.deleted",
   "reservation.created", "reservation.updated"]

/-- The `ws.onmessage` handler (`src/unnamed/part_000` lines 1693-1724).
A frame that fails to parse is caught and logged; a frame without a `type`
returns early; `resource.deleted` filters the resources cache in place;
the other handled types issue re-fetch calls; the `default` branch does
nothing. The result is the new caches and the list of calls issued. -/
def onWsMessage (caches : ClientCaches) (isAdmin : Bool) (msg : WsMessage) :
    ClientCaches × List ClientCall :=
  if msg.parses = false then (caches, [])
  else
    match msg.type with
    | none => (caches, [])
    | some t =>
      if t = "resource.updated" ∨ t = "resource.created" then
        (caches, [ClientCall.syncResource msg.resourceId])
      else if t = "resource.deleted" then
        ({ caches with
           resources := caches.resources.filter (fun r => !(some r.id == msg.resourceId)) },
         [])
      else if t = "device.updated" ∨ t = "device.created" ∨ t = "device.deleted" then
        (caches, [ClientCall.loadDevices])
      else if t = "reservation.created" ∨ t = "reservation.updated" then
        (caches,
         [ClientCall.loadResources, ClientCall.loadActiveReservations,
          ClientCall.loadHistory, ClientCall.loadStats] ++
           (if isAdmin then [ClientCall.loadAdminReservations] else []))
      else (caches, [])

/-- Demo lock device linked to resource 1. -/
def demoLock : Device :=
  { id := 5, name := "lock-1", type := DeviceType.lock, status := "locked",
    resource_id := some 1 }

/-- Demo reservable resource linked to the demo lock device. -/
def demoResource : Resource :=
  { id := 1, name := "Sala 1", type := "room", location := "Bloco A",
    capacity := 10, device_id := some 5, status := ResourceStatus.available }

/-- Demo non-admin user `u2`, permitted on resource 1. -/
def demoUserU2 : User :=
  { id := 2, username := "u2", role := Role.user, is_active := true,
    permitted_resource_ids := [1] }

/-- Demo non-admin user `u3`, permitted on resource 1. -/
def demoUserU3 : User :=
  { id := 3, username := "u3", role := Role.user, is_active := true,
    permitted_resource_ids := [1] }

/-- Demo initial state: one available resource, its lock device, no
reservations, empty queue and audit log. -/
def demoState : SysState :=
  { resources := [demoResource], devices := [demoLock], reservations := [],
    commands := [], audit := [], next_reservation_id := 1, next_command_id := 1 }

/-- Demo state after `u2` reserves resource 1 for 30 minutes at time 0
(scenario A). -/
def demoStateActive : SysState :=
  (createReservation demoState 1 demoUserU2 none none 30 0).1

/-- Demo state after booking two non-overlapping future slots on resource 1. -/
def demoStateTwoScheduled : SysState :=
  (createReservation
    (createReservation demoState 1 demoUserU2 none (some 100) 30 0).1
    1 demoUserU3 none (some 200) 30 0).1

/-- Equality of `Except` results is decidable when both components are. -/
instance {ε α : Type} [DecidableEq ε] [DecidableEq α] : DecidableEq (Except ε α) := fun x y =>
  match x, y with
  | Except.error a, Except.error b =>
    if h : a = b then Decidable.isTrue (by rw [h])
    else Decidable.isFalse (fun hc => h (by injection hc))
  | Except.ok a, Except.ok b =>
    if h : a = b then Decidable.isTrue (by rw [h])
    else Decidable.isFalse (fun hc => h (by injection hc))
  | Except.error _, Except.ok _ => Decidable.isFalse (fun hc => Except.noConfusion hc)
  | Except.ok _, Except.error _ => Decidable.isFalse (fun hc => Except.noConfusion hc)

/-- Demo user without any resource permission. -/
def demoUserNoPerm : User :=
  { id := 7, username := "u7", role := Role.user, is_active := true,
    permitted_resource_ids := [] }

/-- Demo admin user. -/
def demoAdmin : User :=
  { id := 1, username := "admin", role := Role.admin, is_active := true,
    permitted_resource_ids := [] }

/-- Demo reservation already in the terminal `completed` state. -/
def demoTerminalRes : Reservation :=
  { id := 9, resource_id := 1, user_id := 2, created_at := 0, start_time := 0,
    expires_at := 10, status := ReservationStatus.completed, notes := "",
    released_by_admin := false }

/-- Demo state holding a terminal reservation on resource 1. -/
def demoStateTerminal : SysState :=
  { demoState with reservations := [demoTerminalRes] }

/-- The reservation of scenario A after an admin force release. -/
def demoReleased : Reservation :=
  { id := 1, resource_id := 1, user_id := 2, created_at := 0, start_time := 0,
    expires_at := 30, status := ReservationStatus.completed, notes := "",
    released_by_admin := true }

/-- All state components except the audit log are unchanged, and the audit
log grew only by `denied` entries. -/
def StatePreservedUpToDeniedAudit (s s2 : SysState) : Prop :=
  s2.resources = s.resources ∧ s2.devices = s.devices
    ∧ s2.reservations = s.reservations ∧ s2.commands = s.commands
    ∧ s2.next_reservation_id = s.next_reservation_id
    ∧ s2.next_command_id = s.next_command_id
    ∧ ∃ extra, s2.audit = s.audit ++ extra
        ∧ ∀ a ∈ extra, a.result = AuditResult.denied

theorem enqueueCommand_reservations (s : SysState) (did : Nat) (cmd : CommandKind) (now : Nat) :
    (enqueueCommand s did cmd now).reservations = s.reservations := rfl

theorem enqueueCommand_resources (s : SysState) (did : Nat) (cmd : CommandKind) (now : Nat) :
    (enqueueCommand s did cmd now).resources = s.resources := rfl

theorem enqueueCommand_devices (s : SysState) (did : Nat) (cmd : CommandKind) (now : Nat) :
    (enqueueCommand s did cmd now).devices = s.devices := rfl

theorem enqueueCommand_audit (s : SysState) (did : Nat) (cmd : CommandKind) (now : Nat) :
    (enqueueCommand s did cmd now).audit = s.audit := rfl

theorem list_map_fix {α : Type} (f : α → α) (l : List α) (h : ∀ x ∈ l, f x = x) :
    l.map f = l := by
  induction l with
  | nil => rfl
  | cons x xs ih =>
    have hx := h x (List.mem_cons_self x xs)
    have hxs := ih (fun y hy => h y (List.mem_cons_of_mem x hy))
    simp [hx, hxs]

theorem derivedStatus_ne_maintenance (R : List Reservation) (rid : Nat) :
    derivedStatus R rid ≠ ResourceStatus.maintenance := by
  unfold derivedStatus
  split <;> simp

theorem recomputeResource_idem (R : List Reservation) (res : Resource) :
    recomputeResource R (recomputeResource R res) = recomputeResource R res := by
  unfold recomputeResource
  by_cases h : res.status = ResourceStatus.maintenance
  · simp [h]
  · simp only [h, if_false, if_neg]
    simp [derivedStatus_ne_maintenance]

theorem foldl_enqueue_preserves (s0 : SysState) (k : CommandKind) (now : Nat)
    (l : List Reservation) : ∀ init : SysState,
    ((l.foldl (fun acc r =>
        match linkedLockDevice s0 r.resource_id with
        | some did => enqueueCommand acc did k now
        | none => acc) init).reservations = init.reservations
  ∧ (l.foldl (fun acc r =>
        match linkedLockDevice s0 r.resource_id with
        | some did => enqueueCommand acc did k now
        | none => acc) init).resources = init.resources
  ∧ (l.foldl (fun acc r =>
        match linkedLockDevice s0 r.resource_id with
        | some did => enqueueCommand acc did k now
        | none => acc) init).devices = init.devices
  ∧ (l.foldl (fun acc r =>
        match linkedLockDevice s0 r.resource_id with
        | some did => enqueueCommand acc did k now
        | none => acc) init).audit = init.audit) := by
  induction l with
  | nil => intro init; exact ⟨rfl, rfl, rfl, rfl⟩
  | cons r rest ih =>
    intro init
    rw [List.foldl_cons]
    cases hld : linkedLockDevice s0 r.resource_id with
    | none =>
      simp only [hld]
      exact ih init
    | some did =>
      simp only [hld]
      rcases ih (enqueueCommand init did k now) with ⟨h1, h2, h3, h4⟩
      exact ⟨by rw [h1, enqueueCommand_reservations],
             by rw [h2, enqueueCommand_resources],
             by rw [h3, enqueueCommand_devices],
             by rw [h4, enqueueCommand_audit]⟩

theorem expireOverdue_reservations (s : SysState) (now : Nat) :
    (expireOverdue s now).reservations =
      s.reservations.map (fun r =>
        if r.status == ReservationStatus.active && decide (r.expires_at ≤ now) then
          { r with status := ReservationStatus.expired }
        else r) := by
  unfold expireOverdue
  exact (foldl_enqueue_preserves s CommandKind.lock now _ _).1

theorem expireOverdue_resources (s : SysState) (now : Nat) :
    (expireOverdue s now).resources =
      s.resources.map (recomputeResource ((expireOverdue s now).reservations)) := by
  rw [expireOverdue_reservations]
  unfold expireOverdue
  exact (foldl_enqueue_preserves s CommandKind.lock now _ _).2.1

theorem expire_no_overdue (s : SysState) (now : Nat)
    (h : ∀ r ∈ s.reservations, ¬(r.status = ReservationStatus.active ∧ r.expires_at ≤ now))
    (h2 : s.resources.map (recomputeResource s.reservations) = s.resources) :
    expireOverdue s now = s := by
  have hov : s.reservations.filter (fun r =>
      r.status == ReservationStatus.active && decide (r.expires_at ≤ now)) = [] := by
    rw [List.filter_eq_nil_iff]
    intro r hr
    have := h r hr
    simp only [Bool.and_eq_true, beq_iff_eq, decide_eq_true_eq]
    tauto
  have hmap : s.reservations.map (fun r =>
      if r.status == ReservationStatus.active && decide (r.expires_at ≤ now) then
        { r with status := ReservationStatus.expired }
      else r) = s.reservations := by
    apply list_map_fix
    intro r hr
    have := h r hr
    have hcond : (r.status == ReservationStatus.active && decide (r.expires_at ≤ now)) = false := by
      simp only [Bool.and_eq_true, beq_iff_eq, decide_eq_true_eq, Bool.not_eq_true] at *
      by_contra hcontra
      rw [Bool.not_eq_false, Bool.and_eq_true, beq_iff_eq, decide_eq_true_eq] at hcontra
      exact this hcontra
    rw [hcond]
    simp
  unfold expireOverdue
  simp only [hov, hmap, h2, List.foldl_nil, List.map_nil, List.append_nil]

/-- C6: `expire_overdue_reservations` is idempotent — for every state, running
it twice in immediate succession with the same clock value produces exactly
the final state of running it once. -/
theorem expire_overdue_idempotent (s : SysState) (now : Nat) :
    expireOverdue (expireOverdue s now) now = expireOverdue s now := by
  apply expire_no_overdue
  · intro r hr
    rw [expireOverdue_reservations] at hr
    rcases List.mem_map.mp hr with ⟨r0, _hr0, rfl⟩
    by_cases hc : (r0.status == ReservationStatus.active && decide (r0.expires_at ≤ now)) = true
    · rw [if_pos hc]
      intro hcontra
      exact absurd hcontra.1 (by simp)
    · rw [if_neg hc]
      rw [Bool.not_eq_true, Bool.and_eq_false_iff] at hc
      intro hcontra
      rcases hc with hc | hc
      · rw [beq_eq_false_iff_ne] at hc
        exact hc hcontra.1
      · rw [decide_eq_false_iff_not] at hc
        exact hc hcontra.2
  · rw [expireOverdue_resources]
    apply list_map_fix
    intro x hx
    rcases List.mem_map.mp hx with ⟨y, _, rfl⟩
    exact recomputeResource_idem _ _

/-- C9 (divergence evidence): the `ws.onclose` reconnection path of the
websocket dashboard only closes and reopens the socket; it performs none of
the cache-reloading queries that `loadAll` performs, so a reconnection does
not re-query resources, devices or reservations. -/
theorem reconnect_triggers_no_reload :
    onSocketCloseCalls true true = [ClientCall.closeSocket, ClientCall.openSocket]
  ∧ ClientCall.loadResources ∉ onSocketCloseCalls true true
  ∧ ClientCall.loadDevices ∉ onSocketCloseCalls true true
  ∧ ClientCall.loadActiveReservations ∉ onSocketCloseCalls true true
  ∧ (∀ c ∈ loadAllCalls true, c ∉ onSocketCloseCalls true true)
  ∧ ClientCall.loadResources ∈ initCalls false := by decide

/-- C10: the websocket message handler is total and a no-op on unrecognised
input — a frame that fails to parse, lacks a `type` field, or carries a type
outside the handled event set leaves the client caches unchanged and issues
no call. -/
theorem ws_handler_noop_on_unrecognised (caches : ClientCaches) (isAdmin : Bool)
    (msg : WsMessage)
    (h : msg.parses = false ∨ msg.type = none ∨
         ∀ t, msg.type = some t → t ∉ handledEventTypes) :
    onWsMessage caches isAdmin msg = (caches, []) := by
  unfold onWsMessage
  by_cases hp : msg.parses = false
  · simp [hp]
  · rcases h with h | h | h
    · exact absurd h hp
    · simp [hp, h]
    · cases ht : msg.type with
      | none => simp [hp, ht]
      | some t =>
        have hmem := h t ht
        simp only [handledEventTypes, List.mem_cons, List.not_mem_nil, or_false,
          not_or] at hmem
        obtain ⟨h1, h2, h3, h4, h5, h6, h7, h8⟩ := hmem
        simp [hp, ht, h1, h2, h3, h4, h5, h6, h7, h8]

/-- Witness for C10 at a concrete unrecognised frame. -/
theorem ws_handler_noop_on_unrecognised_witness :
    onWsMessage { resources := [], devices := [], reservations := [] } false
        { parses := true, type := some "unknown.event", resourceId := none } =
      ({ resources := [], devices := [], reservations := [] }, []) :=
  ws_handler_noop_on_unrecognised _ _ _
    (Or.inr (Or.inr (fun t ht => by
      injection ht with hts
      subst hts
      decide)))

theorem popNext_none (did : Nat) (l : List DeviceCommand)
    (h : ∀ c ∈ l, ¬(c.device_id = did ∧ c.consumed = false)) :
    popNextCommand did l = (none, l) := by
  induction l with
  | nil => rfl
  | cons c rest ih =>
    have hc := h c (List.mem_cons_self c rest)
    have hrest := ih (fun c1 h1 => h c1 (List.mem_cons_of_mem c h1))
    unfold popNextCommand
    rw [if_neg hc, hrest]

theorem popNext_eq_none (did : Nat) (l : List DeviceCommand) (l2 : List DeviceCommand)
    (h : popNextCommand did l = (none, l2)) :
    l2 = l ∧ ∀ c ∈ l, ¬(c.device_id = did ∧ c.consumed = false) := by
  induction l generalizing l2 with
  | nil =>
    unfold popNextCommand at h
    rw [Prod.mk.injEq] at h
    exact ⟨h.2.symm, by simp⟩
  | cons a rest ih =>
    unfold popNextCommand at h
    by_cases ha : a.device_id = did ∧ a.consumed = false
    · rw [if_pos ha, Prod.mk.injEq] at h
      exact absurd h.1 (by simp)
    · rw [if_neg ha] at h
      cases hp : popNextCommand did rest with
      | mk o tail =>
        rw [hp] at h
        rw [Prod.mk.injEq] at h
        obtain ⟨h1, h2⟩ := h
        subst h1
        obtain ⟨ht, hall⟩ := ih tail hp
        subst ht
        refine ⟨h2.symm, ?_⟩
        intro c hc
        rcases List.mem_cons.mp hc with rfl | hc
        · exact ha
        · exact hall c hc

theorem popNext_eq_some (did : Nat) (l : List DeviceCommand) :
    ∀ (l' : List DeviceCommand) (c : DeviceCommand),
    popNextCommand did l = (some c, l') →
    ∃ l1 l2, l = l1 ++ c :: l2
      ∧ (∀ c1 ∈ l1, ¬(c1.device_id = did ∧ c1.consumed = false))
      ∧ c.device_id = did ∧ c.consumed = false
      ∧ l' = l1 ++ { c with consumed := true } :: l2 := by
  induction l with
  | nil =>
    intro l' c h
    unfold popNextCommand at h
    rw [Prod.mk.injEq] at h
    exact absurd h.1 (by simp)
  | cons a rest ih =>
    intro l' c h
    unfold popNextCommand at h
    by_cases ha : a.device_id = did ∧ a.consumed = false
    · rw [if_pos ha, Prod.mk.injEq] at h
      obtain ⟨h1, h2⟩ := h
      injection h1 with h1
      subst h1
      exact ⟨[], rest, by simp, by simp, ha.1, ha.2, by simp [h2.symm]⟩
    · rw [if_neg ha] at h
      cases hp : popNextCommand did rest with
      | mk o tail =>
        rw [hp] at h
        rw [Prod.mk.injEq] at h
        obtain ⟨h1, h2⟩ := h
        subst h1
        obtain ⟨l1, l2, he, hfail, hdev, hcons, htail⟩ := ih tail c hp
        refine ⟨a :: l1, l2, by simp [he], ?_, hdev, hcons, ?_⟩
        · intro c1 hc1
          rcases List.mem_cons.mp hc1 with rfl | hc1
          · exact ha
          · exact hfail c1 hc1
        · rw [← h2, htail]
          simp

theorem drain_eq_filter (did : Nat) : ∀ (n : Nat) (s : SysState),
    (s.commands.filter (pendingFor did)).length ≤ n →
    drainCommands n s did = s.commands.filter (pendingFor did) := by
  intro n
  induction n with
  | zero =>
    intro s h
    have hnil : s.commands.filter (pendingFor did) = [] :=
      List.eq_nil_of_length_eq_zero (Nat.le_zero.mp h)
    rw [hnil]
    rfl
  | succ n ih =>
    intro s h
    cases hp : popNextCommand did s.commands with
    | mk o tail =>
      cases o with
      | none =>
        obtain ⟨-, hall⟩ := popNext_eq_none did s.commands tail hp
        have hnil : s.commands.filter (pendingFor did) = [] := by
          rw [List.filter_eq_nil_iff]
          intro c hc
          have := hall c hc
          simp only [pendingFor, Bool.and_eq_true, beq_iff_eq, Bool.not_eq_true'] 
          tauto
        rw [hnil]
        unfold drainCommands
        simp [fetch_next_command, hp]
      | some c =>
        obtain ⟨l1, l2, he, hfail, hdev, hcons, htail⟩ :=
          popNext_eq_some did s.commands tail c hp
        have hf1 : l1.filter (pendingFor did) = [] := by
          rw [List.filter_eq_nil_iff]
          intro c1 h1
          have := hfail c1 h1
          simp only [pendingFor, Bool.and_eq_true, beq_iff_eq, Bool.not_eq_true']
          tauto
        have hpc : pendingFor did c = true := by
          simp [pendingFor, hdev, hcons]
        have hfc : s.commands.filter (pendingFor did) = c :: l2.filter (pendingFor did) := by
          rw [he, List.filter_append, hf1, List.nil_append, List.filter_cons, if_pos hpc]
        have hfconsumed : pendingFor did ({ c with consumed := true } : DeviceCommand) = false := by
          simp [pendingFor]
        have hft : tail.filter (pendingFor did) = l2.filter (pendingFor did) := by
          rw [htail, List.filter_append, hf1, List.nil_append, List.filter_cons, hfconsumed]
          simp
        have hlen : (tail.filter (pendingFor did)).length ≤ n := by
          rw [hft]
          have hh := h
          rw [hfc] at hh
          simpa using Nat.lt_succ_iff.mp (Nat.lt_of_lt_of_le (Nat.lt_succ_self _) hh)
        have ihres := ih { s with commands := tail } hlen
        unfold drainCommands
        simp only [fetch_next_command, hp]
        rw [ihres]
        show c :: tail.filter (pendingFor did) = s.commands.filter (pendingFor did)
        rw [hft, hfc]

/-- C4: `fetch_next(device_id)` atomically pops the oldest unconsumed command
of the device, marking it consumed in the same step, returns an explicit
no-command result (not an error) on an empty queue, and two consecutive
fetches with no intervening enqueue never return the same command. -/
theorem fetch_next_atomic_at_most_once (s : SysState) (did : Nat)
    (hids : (s.commands.map (fun c => c.id)).Nodup) :
    ((∀ c ∈ s.commands, ¬(c.device_id = did ∧ c.consumed = false)) →
       fetch_next_command s did = (none, s))
  ∧ (∀ c s', fetch_next_command s did = (some c, s') →
      (∃ l1 l2, s.commands = l1 ++ c :: l2
        ∧ (∀ c1 ∈ l1, ¬(c1.device_id = did ∧ c1.consumed = false))
        ∧ c.device_id = did ∧ c.consumed = false
        ∧ s'.commands = l1 ++ { c with consumed := true } :: l2)
      ∧ (∀ c2 s2, fetch_next_command s' did = (some c2, s2) → c2.id ≠ c.id)) := by
  constructor
  · intro hempty
    rw [fetch_next_command, popNext_none did s.commands hempty]
  · intro c s' hfetch
    rw [fetch_next_command, Prod.mk.injEq] at hfetch
    obtain ⟨h1, h2⟩ := hfetch
    have hpair : popNextCommand did s.commands = (some c, (popNextCommand did s.commands).2) := by
      rw [← h1]
    obtain ⟨l1, l2, he, hfail, hdev, hcons, htail⟩ :=
      popNext_eq_some did s.commands _ c hpair
    have hcomm : s'.commands = l1 ++ { c with consumed := true } :: l2 := by
      rw [← h2, ← htail]
    refine ⟨⟨l1, l2, he, hfail, hdev, hcons, hcomm⟩, ?_⟩
    intro c2 s2 hfetch2
    rw [fetch_next_command, Prod.mk.injEq] at hfetch2
    obtain ⟨h1b, _⟩ := hfetch2
    have hpair2 : popNextCommand did s'.commands = (some c2, (popNextCommand did s'.commands).2) := by
      rw [← h1b]
    obtain ⟨m1, m2, he2, _hfail2, hdev2, hcons2, _⟩ :=
      popNext_eq_some did s'.commands _ c2 hpair2
    have hmem2 : c2 ∈ s'.commands := by
      rw [he2]
      exact List.mem_append_right m1 (List.mem_cons_self c2 m2)
    rw [hcomm] at hmem2
    rcases List.mem_append.mp hmem2 with hin1 | hintail
    · exact absurd ⟨hdev2, hcons2⟩ (hfail _ hin1)
    · rcases List.mem_cons.mp hintail with rfl | hin2
      · exact absurd hcons2 (by simp)
      · have hidsplit : ((l1 ++ c :: l2).map (fun c => c.id)).Nodup := by
          rw [← he]
          exact hids
        rw [List.map_append, List.map_cons] at hidsplit
        have hnodupR := hidsplit.of_append_right
        have hnotin : c.id ∉ l2.map (fun c => c.id) := (List.nodup_cons.mp hnodupR).1
        intro hcontra
        apply hnotin
        rw [← hcontra]
        exact List.mem_map_of_mem (fun c => c.id) hin2

/-- Witness for C4: the demo state has duplicate-free command ids and an
empty queue, so a fetch returns the explicit no-command result. -/
theorem fetch_next_atomic_at_most_once_witness :
    fetch_next_command demoState 5 = (none, demoState) :=
  (fetch_next_atomic_at_most_once demoState 5 (by decide)).1 (by decide)

/-- C5: `enqueue` appends at the tail of the device's FIFO with no
deduplication, and draining via `fetch_next` returns the pending commands in
queue order; in particular enqueuing `lock` then `unlock` and draining
yields `lock` strictly before `unlock`. -/
theorem enqueue_fifo_order :
    (∀ (s : SysState) (did : Nat) (cmd : CommandKind) (now : Nat),
      (enqueueCommand s did cmd now).commands =
        s.commands ++
          [{ id := s.next_command_id, device_id := did, command := cmd,
             enqueued_at := now, consumed := false }])
  ∧ (∀ (s : SysState) (did : Nat),
      drainCommands s.commands.length s did = s.commands.filter (pendingFor did))
  ∧ (∀ (s : SysState) (did : Nat) (now1 now2 : Nat),
      drainCommands
          (enqueueCommand (enqueueCommand s did CommandKind.lock now1) did
            CommandKind.unlock now2).commands.length
          (enqueueCommand (enqueueCommand s did CommandKind.lock now1) did
            CommandKind.unlock now2) did =
        s.commands.filter (pendingFor did) ++
          [{ id := s.next_command_id, device_id := did, command := CommandKind.lock,
             enqueued_at := now1, consumed := false },
           { id := s.next_command_id + 1, device_id := did, command := CommandKind.unlock,
             enqueued_at := now2, consumed := false }]) := by
  refine ⟨fun s did cmd now => rfl, ?_, ?_⟩
  · intro s did
    exact drain_eq_filter did s.commands.length s (List.length_filter_le _ _)
  · intro s did now1 now2
    rw [drain_eq_filter did _ _ (List.length_filter_le _ _)]
    have hcomm : (enqueueCommand (enqueueCommand s did CommandKind.lock now1) did
        CommandKind.unlock now2).commands =
        (s.commands ++
          [{ id := s.next_command_id, device_id := did, command := CommandKind.lock,
             enqueued_at := now1, consumed := false }]) ++
          [{ id := s.next_command_id + 1, device_id := did, command := CommandKind.unlock,
             enqueued_at := now2, consumed := false }] := rfl
    rw [hcomm, List.filter_append, List.filter_append]
    simp [pendingFor]

theorem denyResult_preserves (s : SysState) (now uid : Nat) (act : String) (rid : Nat)
    (det : String) (e : ApiError) :
    StatePreservedUpToDeniedAudit s (denyResult s now uid act rid det e).1 := by
  refine ⟨rfl, rfl, rfl, rfl, rfl, rfl,
    [{ timestamp := now, user_id := some uid, action := act, resource_id := some rid,
       device_id := none, reservation_id := none, result := AuditResult.denied,
       detail := det }], rfl, ?_⟩
  intro a ha
  rcases List.mem_singleton.mp ha with rfl
  rfl

theorem createReservation_cases (s : SysState) (rid : Nat) (u : User) (tgt st : Option Nat)
    (dur now : Nat) :
    (∃ det e, createReservation s rid u tgt st dur now = denyResult s now u.id "reserve" rid det e)
  ∨ createReservation s rid u tgt st dur now =
      (applyCreate s rid u (newReservation s rid u tgt st dur now) now,
       Except.ok (newReservation s rid u tgt st dur now)) := by
  unfold createReservation
  cases hfr : findResource s rid with
  | none => exact Or.inl ⟨_, _, rfl⟩
  | some res =>
    simp only []
    by_cases h1 : can_access u rid = false
    · rw [if_pos h1]; exact Or.inl ⟨_, _, rfl⟩
    · rw [if_neg h1]
      by_cases h2 : can_act_for u tgt = false
      · rw [if_pos h2]; exact Or.inl ⟨_, _, rfl⟩
      · rw [if_neg h2]
        by_cases h3 : dur = 0 ∨ max_duration_minutes < dur
        · rw [if_pos h3]; exact Or.inl ⟨_, _, rfl⟩
        · rw [if_neg h3]
          by_cases h4 : st.getD now + start_time_tolerance < now
          · rw [if_pos h4]; exact Or.inl ⟨_, _, rfl⟩
          · rw [if_neg h4]
            by_cases h5 : hasConflict s rid (st.getD now) (st.getD now + dur) = true
            · rw [if_pos h5]; exact Or.inl ⟨_, _, rfl⟩
            · rw [if_neg h5]; exact Or.inr rfl

theorem releaseReservation_cases (s : SysState) (rid : Nat) (u : User) (force : Bool)
    (now : Nat) :
    (∃ det e, releaseReservation s rid u force now = denyResult s now u.id "release" rid det e)
  ∨ (¬(force = true ∧ u.role ≠ Role.admin)
      ∧ ∃ target, s.reservations.find? (fun r =>
            r.resource_id == rid && r.status == ReservationStatus.active
              && (force || r.user_id == u.id)) = some target
        ∧ releaseReservation s rid u force now =
            (applyRelease s rid u force target now,
             Except.ok { target with status := ReservationStatus.completed,
                                     released_by_admin := force })) := by
  unfold releaseReservation
  cases hfr : findResource s rid with
  | none => exact Or.inl ⟨_, _, rfl⟩
  | some res =>
    simp only []
    by_cases h1 : force = true ∧ u.role ≠ Role.admin
    · rw [if_pos h1]; exact Or.inl ⟨_, _, rfl⟩
    · rw [if_neg h1]
      cases hfind : s.reservations.find? (fun r =>
          r.resource_id == rid && r.status == ReservationStatus.active
            && (force || r.user_id == u.id)) with
      | none => simp only [hfind]; exact Or.inl ⟨_, _, rfl⟩
      | some target => simp only [hfind]; exact Or.inr ⟨h1, target, rfl, rfl⟩

theorem updateReservationStatus_cases (s : SysState) (resid : Nat) (u : User)
    (ns : ReservationStatus) (now : Nat) :
    (∃ det e, updateReservationStatus s resid u ns now =
        denyResult s now u.id "update_reservation" resid det e)
  ∨ ∃ target, s.reservations.find? (fun r => r.id == resid) = some target
      ∧ allowedTransition target.status ns = true
      ∧ updateReservationStatus s resid u ns now =
          (applyUpdateStatus s resid u target ns now,
           Except.ok { target with status := ns }) := by
  unfold updateReservationStatus
  by_cases h1 : u.role ≠ Role.admin
  · rw [if_pos h1]; exact Or.inl ⟨_, _, rfl⟩
  · rw [if_neg h1]
    cases hfind : s.reservations.find? (fun r => r.id == resid) with
    | none => simp only [hfind]; exact Or.inl ⟨_, _, rfl⟩
    | some target =>
      simp only [hfind]
      by_cases h2 : allowedTransition target.status ns = false
      · rw [if_pos h2]; exact Or.inl ⟨_, _, rfl⟩
      · rw [if_neg h2]
        exact Or.inr ⟨target, rfl, by
          cases hval : allowedTransition target.status ns
          · exact absurd hval h2
          · rfl, rfl⟩

theorem createReservation_error_shape (s : SysState) (rid : Nat) (u : User)
    (tgt st : Option Nat) (dur now : Nat) (e : ApiError)
    (h : (createReservation s rid u tgt st dur now).2 = Except.error e) :
    ∃ det, createReservation s rid u tgt st dur now =
      denyResult s now u.id "reserve" rid det e := by
  rcases createReservation_cases s rid u tgt st dur now with ⟨det, e0, heq⟩ | heq
  · rw [heq] at h
    have : Except.error (α := Reservation) e0 = Except.error e := h
    injection this with he
    subst he
    exact ⟨det, heq⟩
  · rw [heq] at h
    exact absurd h (by simp)

theorem createReservation_ok_shape (s : SysState) (rid : Nat) (u : User)
    (tgt st : Option Nat) (dur now : Nat) (r : Reservation)
    (h : (createReservation s rid u tgt st dur now).2 = Except.ok r) :
    r = newReservation s rid u tgt st dur now
    ∧ createReservation s rid u tgt st dur now =
        (applyCreate s rid u (newReservation s rid u tgt st dur now) now,
         Except.ok (newReservation s rid u tgt st dur now)) := by
  rcases createReservation_cases s rid u tgt st dur now with ⟨det, e0, heq⟩ | heq
  · rw [heq] at h
    exact absurd h (by simp [denyResult])
  · rw [heq] at h
    have : Except.ok (ε := ApiError) (newReservation s rid u tgt st dur now) = Except.ok r := h
    injection this with he
    exact ⟨he.symm, heq⟩

theorem releaseReservation_error_shape (s : SysState) (rid : Nat) (u : User) (force : Bool)
    (now : Nat) (e : ApiError)
    (h : (releaseReservation s rid u force now).2 = Except.error e) :
    ∃ det, releaseReservation s rid u force now =
      denyResult s now u.id "release" rid det e := by
  rcases releaseReservation_cases s rid u force now with ⟨det, e0, heq⟩ | ⟨-, target, -, heq⟩
  · rw [heq] at h
    have : Except.error (α := Reservation) e0 = Except.error e := h
    injection this with he
    subst he
    exact ⟨det, heq⟩
  · rw [heq] at h
    exact absurd h (by simp)

theorem updateReservationStatus_error_shape (s : SysState) (resid : Nat) (u : User)
    (ns : ReservationStatus) (now : Nat) (e : ApiError)
    (h : (updateReservationStatus s resid u ns now).2 = Except.error e) :
    ∃ det, updateReservationStatus s resid u ns now =
      denyResult s now u.id "update_reservation" resid det e := by
  rcases updateReservationStatus_cases s resid u ns now with ⟨det, e0, heq⟩ | ⟨target, -, -, heq⟩
  · rw [heq] at h
    have : Except.error (α := Reservation) e0 = Except.error e := h
    injection this with he
    subst he
    exact ⟨det, heq⟩
  · rw [heq] at h
    exact absurd h (by simp)

/-- C3: a mutating operation that fails with a validation or permission error
(`PermissionDenied`, `InvalidInput`, `InvalidDuration`, `NotFound`) leaves
the whole state unchanged — no reservation row, no resource, device or
command change, and no `success` audit entry; only `denied` audit entries
may be appended. -/
theorem validation_errors_leave_state_unchanged :
    (∀ (s : SysState) (rid : Nat) (u : User) (tgt st : Option Nat) (dur now : Nat)
        (e : ApiError),
      (createReservation s rid u tgt st dur now).2 = Except.error e →
      e ∈ [ApiError.permissionDenied, ApiError.invalidInput, ApiError.invalidDuration,
            ApiError.notFound] →
      StatePreservedUpToDeniedAudit s (createReservation s rid u tgt st dur now).1)
  ∧ (∀ (s : SysState) (rid : Nat) (u : User) (force : Bool) (now : Nat) (e : ApiError),
      (releaseReservation s rid u force now).2 = Except.error e →
      e ∈ [ApiError.permissionDenied, ApiError.invalidInput, ApiError.invalidDuration,
            ApiError.notFound] →
      StatePreservedUpToDeniedAudit s (releaseReservation s rid u force now).1)
  ∧ (∀ (s : SysState) (resid : Nat) (u : User) (ns : ReservationStatus) (now : Nat)
        (e : ApiError),
      (updateReservationStatus s resid u ns now).2 = Except.error e →
      e ∈ [ApiError.permissionDenied, ApiError.invalidInput, ApiError.invalidDuration,
            ApiError.notFound] →
      StatePreservedUpToDeniedAudit s (updateReservationStatus s resid u ns now).1) := by
  refine ⟨?_, ?_, ?_⟩
  · intro s rid u tgt st dur now e h _hmem
    obtain ⟨det, hshape⟩ := createReservation_error_shape s rid u tgt st dur now e h
    rw [hshape]
    exact denyResult_preserves s now u.id "reserve" rid det e
  · intro s rid u force now e h _hmem
    obtain ⟨det, hshape⟩ := releaseReservation_error_shape s rid u force now e h
    rw [hshape]
    exact denyResult_preserves s now u.id "release" rid det e
  · intro s resid u ns now e h _hmem
    obtain ⟨det, hshape⟩ := updateReservationStatus_error_shape s resid u ns now e h
    rw [hshape]
    exact denyResult_preserves s now u.id "update_reservation" resid det e

/-- Witness for C3: scenario F — a user without permission attempts to
reserve, the call fails with `PermissionDenied` and the state is preserved
up to a `denied` audit entry. -/
theorem validation_errors_leave_state_unchanged_witness :
    (createReservation demoState 1 demoUserNoPerm none none 30 0).2 =
        Except.error ApiError.permissionDenied
  ∧ StatePreservedUpToDeniedAudit demoState
      (createReservation demoState 1 demoUserNoPerm none none 30 0).1 :=
  ⟨by decide,
   validation_errors_leave_state_unchanged.1 demoState 1 demoUserNoPerm none none 30 0
     ApiError.permissionDenied (by decide) (by decide)⟩

theorem applyCreate_reservations (s : SysState) (rid : Nat) (u : User) (r : Reservation)
    (now : Nat) :
    (applyCreate s rid u r now).reservations = s.reservations ++ [r] := by
  unfold applyCreate
  by_cases hs : r.status = ReservationStatus.active
  · simp only [if_pos hs]
    cases hld : linkedLockDevice s rid with
    | none => rfl
    | some did => rfl
  · simp only [if_neg hs]

theorem applyCreate_commands_unlock (s : SysState) (rid : Nat) (u : User) (r : Reservation)
    (now : Nat) (did : Nat) (hs : r.status = ReservationStatus.active)
    (hld : linkedLockDevice s rid = some did) :
    (applyCreate s rid u r now).commands =
      s.commands ++
        [{ id := s.next_command_id, device_id := did, command := CommandKind.unlock,
           enqueued_at := now, consumed := false }] := by
  unfold applyCreate
  simp only [if_pos hs, hld]
  rfl

/-- C2: `create_reservation` inserts the new reservation with status
`scheduled` when the start time is in the future and `active` when it is not;
when the reservation is immediately `active` and the resource has a linked
`lock` device, an `unlock` command is enqueued for that device. -/
theorem create_reservation_status_and_unlock (s : SysState) (rid : Nat) (u : User)
    (tgt st : Option Nat) (dur now : Nat) (r : Reservation)
    (h : (createReservation s rid u tgt st dur now).2 = Except.ok r) :
    r.status = (if now < st.getD now then ReservationStatus.scheduled
                else ReservationStatus.active)
  ∧ r ∈ (createReservation s rid u tgt st dur now).1.reservations
  ∧ (r.status = ReservationStatus.active →
      ∀ did, linkedLockDevice s rid = some did →
        ∃ c ∈ (createReservation s rid u tgt st dur now).1.commands,
          c.device_id = did ∧ c.command = CommandKind.unlock ∧ c.consumed = false) := by
  obtain ⟨hr, hshape⟩ := createReservation_ok_shape s rid u tgt st dur now r h
  refine ⟨by rw [hr]; rfl, ?_, ?_⟩
  · simp only [hshape, applyCreate_reservations]
    rw [hr]
    exact List.mem_append_right _ (List.mem_singleton_self _)
  · intro hs did hld
    rw [hr] at hs
    simp only [hshape,
      applyCreate_commands_unlock s rid u (newReservation s rid u tgt st dur now) now did
        hs hld]
    exact ⟨_, List.mem_append_right _ (List.mem_singleton_self _), rfl, rfl, rfl⟩

/-- Witness for C2: scenario A — reserving resource 1 now yields an `active`
reservation and queues an `unlock` command for the linked lock device. -/
theorem create_reservation_status_and_unlock_witness :
    (createReservation demoState 1 demoUserU2 none none 30 0).2 =
        Except.ok (newReservation demoState 1 demoUserU2 none none 30 0)
  ∧ (newReservation demoState 1 demoUserU2 none none 30 0) ∈
      (createReservation demoState 1 demoUserU2 none none 30 0).1.reservations
  ∧ ∃ c ∈ (createReservation demoState 1 demoUserU2 none none 30 0).1.commands,
      c.device_id = 5 ∧ c.command = CommandKind.unlock ∧ c.consumed = false :=
  ⟨by decide,
   (create_reservation_status_and_unlock demoState 1 demoUserU2 none none 30 0
      (newReservation demoState 1 demoUserU2 none none 30 0) (by decide)).2.1,
   (create_reservation_status_and_unlock demoState 1 demoUserU2 none none 30 0
      (newReservation demoState 1 demoUserU2 none none 30 0) (by decide)).2.2
     (by decide) 5 (by decide)⟩

/-- C1 counterexample: from the demo state, two reserve requests for
non-overlapping future slots on resource 1 both succeed, leaving two
reservations on the same resource simultaneously in `scheduled` state — so
at most one `scheduled`-or-`active` reservation per resource does not hold
at every instant. -/
theorem double_booking_counterexample :
    (createReservation demoState 1 demoUserU2 none (some 100) 30 0).2 =
        Except.ok (newReservation demoState 1 demoUserU2 none (some 100) 30 0)
  ∧ (createReservation (createReservation demoState 1 demoUserU2 none (some 100) 30 0).1
        1 demoUserU3 none (some 200) 30 0).2 =
      Except.ok (newReservation
        (createReservation demoState 1 demoUserU2 none (some 100) 30 0).1
        1 demoUserU3 none (some 200) 30 0)
  ∧ (demoStateTwoScheduled.reservations.filter (fun r =>
        r.resource_id == 1
          && (r.status == ReservationStatus.scheduled
              || r.status == ReservationStatus.active))).length = 2 := by decide

/-- C1 (amended): a reserve request whose interval overlaps an existing
`scheduled` or `active` reservation on the same resource fails with
`Conflict` and creates no new reservation (several reservations with
non-overlapping intervals may be `scheduled` on one resource at once). -/
theorem overlap_conflict_rejected (s : SysState) (rid : Nat) (u : User) (tgt st : Option Nat)
    (dur now : Nat)
    (hres : (findResource s rid).isSome = true)
    (hacc : ¬(can_access u rid = false))
    (hact : ¬(can_act_for u tgt = false))
    (hdur : ¬(dur = 0 ∨ max_duration_minutes < dur))
    (hst : ¬(st.getD now + start_time_tolerance < now))
    (hconf : ∃ r ∈ s.reservations, r.resource_id = rid
        ∧ (r.status = ReservationStatus.scheduled ∨ r.status = ReservationStatus.active)
        ∧ overlaps r.start_time r.expires_at (st.getD now) (st.getD now + dur) = true) :
    (createReservation s rid u tgt st dur now).2 = Except.error ApiError.conflict
  ∧ (createReservation s rid u tgt st dur now).1.reservations = s.reservations := by
  have hconfb : hasConflict s rid (st.getD now) (st.getD now + dur) = true := by
    rw [hasConflict, List.any_eq_true]
    obtain ⟨r, hr, h1, h2, h3⟩ := hconf
    refine ⟨r, hr, ?_⟩
    rw [Bool.and_eq_true, Bool.and_eq_true]
    refine ⟨⟨by rw [beq_iff_eq]; exact h1, ?_⟩, h3⟩
    rcases h2 with h2 | h2 <;> simp [h2]
  unfold createReservation
  cases hfr : findResource s rid with
  | none => rw [hfr] at hres; exact absurd hres (by simp)
  | some res =>
    simp only []
    rw [if_neg hacc, if_neg hact, if_neg hdur, if_neg hst, if_pos hconfb]
    exact ⟨rfl, rfl⟩

/-- Witness for C1 (amended): scenario B — a second reserve attempt on
resource 1 while u2's reservation is active fails with `Conflict` and adds
no reservation row. -/
theorem overlap_conflict_rejected_witness :
    (createReservation demoStateActive 1 demoUserU3 none none 30 10).2 =
        Except.error ApiError.conflict
  ∧ (createReservation demoStateActive 1 demoUserU3 none none 30 10).1.reservations =
      demoStateActive.reservations :=
  overlap_conflict_rejected demoStateActive 1 demoUserU3 none none 30 10
    (by decide) (by decide) (by decide) (by decide) (by decide) (by decide)

theorem isTerminal_ne_active (st : ReservationStatus) (h : isTerminal st = true) :
    st ≠ ReservationStatus.active := by
  cases st <;> simp_all [isTerminal]

theorem isTerminal_ne_scheduled (st : ReservationStatus) (h : isTerminal st = true) :
    st ≠ ReservationStatus.scheduled := by
  cases st <;> simp_all [isTerminal]

theorem isTerminal_no_transition (st ns : ReservationStatus) (h : isTerminal st = true) :
    allowedTransition st ns = false := by
  cases st <;> cases ns <;> simp_all [isTerminal, allowedTransition]

theorem denyResult_reservations (s : SysState) (now uid : Nat) (act : String) (rid : Nat)
    (det : String) (e : ApiError) :
    (denyResult s now uid act rid det e).1.reservations = s.reservations := rfl

theorem mem_map_of_fix {α : Type} (f : α → α) {l : List α} {r : α} (hr : r ∈ l)
    (hf : f r = r) : r ∈ l.map f := by
  have := List.mem_map_of_mem f hr
  rwa [hf] at this

theorem applyRelease_reservations (s : SysState) (rid : Nat) (u : User) (force : Bool)
    (target : Reservation) (now : Nat) :
    (applyRelease s rid u force target now).reservations =
      s.reservations.map (fun r =>
        if r.id == target.id && r.status == ReservationStatus.active then
          { r with status := ReservationStatus.completed, released_by_admin := force }
        else r) := by
  unfold applyRelease
  cases hld : linkedLockDevice s rid with
  | none => rfl
  | some did => rfl

theorem applyUpdateStatus_reservations (s : SysState) (resid : Nat) (u : User)
    (target : Reservation) (ns : ReservationStatus) (now : Nat) :
    (applyUpdateStatus s resid u target ns now).reservations =
      s.reservations.map (fun r =>
        if r.id == resid && allowedTransition r.status ns then { r with status := ns }
        else r) := rfl

theorem activateScheduled_reservations (s : SysState) (now : Nat) :
    (activateScheduled s now).reservations =
      s.reservations.map (fun r =>
        if r.status == ReservationStatus.scheduled && decide (r.start_time ≤ now) then
          if (dueScheduled s now).all (fun r2 =>
              r2.resource_id != r.resource_id || beatsOrEq r r2) then
            { r with status := ReservationStatus.active }
          else { r with status := ReservationStatus.cancelled }
        else r) := by
  unfold activateScheduled
  exact (foldl_enqueue_preserves s CommandKind.unlock now _ _).1

/-- C7: the terminal reservation states are immutable — user release, admin
force release, admin status update, sweeper activation and sweeper expiry
all leave every reservation already in `completed`, `expired` or `cancelled`
state present and unchanged in the store. -/
theorem terminal_reservations_immutable :
    (∀ (s : SysState) (rid : Nat) (u : User) (tgt st : Option Nat) (dur now : Nat)
        (r : Reservation), isTerminal r.status = true → r ∈ s.reservations →
        r ∈ (createReservation s rid u tgt st dur now).1.reservations)
  ∧ (∀ (s : SysState) (rid : Nat) (u : User) (force : Bool) (now : Nat) (r : Reservation),
        isTerminal r.status = true → r ∈ s.reservations →
        r ∈ (releaseReservation s rid u force now).1.reservations)
  ∧ (∀ (s : SysState) (resid : Nat) (u : User) (ns : ReservationStatus) (now : Nat)
        (r : Reservation), isTerminal r.status = true → r ∈ s.reservations →
        r ∈ (updateReservationStatus s resid u ns now).1.reservations)
  ∧ (∀ (s : SysState) (now : Nat) (r : Reservation), isTerminal r.status = true →
        r ∈ s.reservations → r ∈ (activateScheduled s now).reservations)
  ∧ (∀ (s : SysState) (now : Nat) (r : Reservation), isTerminal r.status = true →
        r ∈ s.reservations → r ∈ (expireOverdue s now).reservations) := by
  refine ⟨?_, ?_, ?_, ?_, ?_⟩
  · intro s rid u tgt st dur now r hterm hr
    rcases createReservation_cases s rid u tgt st dur now with ⟨det, e, heq⟩ | heq
    · simp only [heq, denyResult_reservations]
      exact hr
    · simp only [heq, applyCreate_reservations]
      exact List.mem_append_left _ hr
  · intro s rid u force now r hterm hr
    rcases releaseReservation_cases s rid u force now with ⟨det, e, heq⟩ | ⟨-, target, -, heq⟩
    · simp only [heq, denyResult_reservations]
      exact hr
    · simp only [heq, applyRelease_reservations]
      apply mem_map_of_fix _ hr
      have hcond : (r.id == target.id && r.status == ReservationStatus.active) = false := by
        rw [Bool.and_eq_false_iff]
        right
        rw [beq_eq_false_iff_ne]
        exact isTerminal_ne_active _ hterm
      rw [hcond]
      simp
  · intro s resid u ns now r hterm hr
    rcases updateReservationStatus_cases s resid u ns now with ⟨det, e, heq⟩ | ⟨target, -, -, heq⟩
    · simp only [heq, denyResult_reservations]
      exact hr
    · simp only [heq, applyUpdateStatus_reservations]
      apply mem_map_of_fix _ hr
      have hcond : (r.id == resid && allowedTransition r.status ns) = false := by
        rw [Bool.and_eq_false_iff]
        right
        exact isTerminal_no_transition _ _ hterm
      rw [hcond]
      simp
  · intro s now r hterm hr
    rw [activateScheduled_reservations]
    apply mem_map_of_fix _ hr
    have hcond : (r.status == ReservationStatus.scheduled
        && decide (r.start_time ≤ now)) = false := by
      rw [Bool.and_eq_false_iff]
      left
      rw [beq_eq_false_iff_ne]
      exact isTerminal_ne_scheduled _ hterm
    rw [hcond]
    simp
  · intro s now r hterm hr
    rw [expireOverdue_reservations]
    apply mem_map_of_fix _ hr
    have hcond : (r.status == ReservationStatus.active
        && decide (r.expires_at ≤ now)) = false := by
      rw [Bool.and_eq_false_iff]
      left
      rw [beq_eq_false_iff_ne]
      exact isTerminal_ne_active _ hterm
    rw [hcond]
    simp

/-- Witness for C7: a `completed` reservation survives a new reserve request
on its resource untouched. -/
theorem terminal_reservations_immutable_witness :
    isTerminal demoTerminalRes.status = true
  ∧ demoTerminalRes ∈
      (createReservation demoStateTerminal 1 demoUserU2 none (some 50) 30 0).1.reservations :=
  ⟨by decide,
   terminal_reservations_immutable.1 demoStateTerminal 1 demoUserU2 none (some 50) 30 0
     demoTerminalRes (by decide) (by decide)⟩

/-- C8 counterexample: in the websocket dashboard the release control is
enabled for a reserved resource whose reservation belongs to another user —
the enabled test depends only on the resource status, not on the viewer. -/
theorem release_button_nonowner_counterexample :
    releaseButtonEnabled
        { id := 1, available := false, reserved_by := some 42,
          status := ResourceStatus.reserved } 7 = true
  ∧ ({ id := 1, available := false, reserved_by := some 42,
       status := ResourceStatus.reserved } : ClientResource).reserved_by ≠ some 7 := by
  decide

/-- C8 (amended): a non-admin release succeeds only without `force` and only
on the caller's own active reservation; `force` is accepted only from an
admin and records `released_by_admin`. In the prototype dashboard the
release control is offered exactly to the reserving user; in the websocket
dashboard the release control is enabled for every reserved resource
regardless of the viewer. -/
theorem release_permissions_and_client_controls :
    (∀ (s : SysState) (rid : Nat) (u : User) (force : Bool) (now : Nat) (r2 : Reservation),
        u.role ≠ Role.admin →
        (releaseReservation s rid u force now).2 = Except.ok r2 →
        force = false ∧ r2.user_id = u.id)
  ∧ (∀ (s : SysState) (rid : Nat) (u : User) (now : Nat) (r2 : Reservation),
        (releaseReservation s rid u true now).2 = Except.ok r2 →
        u.role = Role.admin ∧ r2.released_by_admin = true)
  ∧ (∀ (res : ClientResource) (uid : Nat),
        renderResourceActions res uid = ClientControl.releaseButton ↔
          (res.available = false ∧ res.reserved_by = some uid))
  ∧ (∀ (res : ClientResource) (uid : Nat),
        releaseButtonEnabled res uid = (res.status == ResourceStatus.reserved)) := by
  refine ⟨?_, ?_, ?_, fun res uid => rfl⟩
  · intro s rid u force now r2 hrole h
    rcases releaseReservation_cases s rid u force now with ⟨det, e, heq⟩ |
      ⟨hforce, target, hfind, heq⟩
    · rw [heq] at h
      exact absurd h (by simp [denyResult])
    · rw [heq] at h
      have hr2 : ({ target with
                    status := ReservationStatus.completed,
                    released_by_admin := force } : Reservation) = r2 := by
        injection h
      have hforcefalse : force = false := by
        cases force
        · rfl
        · exact absurd ⟨rfl, hrole⟩ hforce
      subst hforcefalse
      refine ⟨rfl, ?_⟩
      have hpred := List.find?_some hfind
      rw [Bool.and_eq_true, Bool.and_eq_true] at hpred
      have huser : (false || target.user_id == u.id) = true := hpred.2
      rw [Bool.false_or, beq_iff_eq] at huser
      rw [← hr2]
      exact huser
  · intro s rid u now r2 h
    rcases releaseReservation_cases s rid u true now with ⟨det, e, heq⟩ |
      ⟨hforce, target, hfind, heq⟩
    · rw [heq] at h
      exact absurd h (by simp [denyResult])
    · rw [heq] at h
      have hr2 : ({ target with
                    status := ReservationStatus.completed,
                    released_by_admin := true } : Reservation) = r2 := by
        injection h
      constructor
      · by_contra hrole
        exact hforce ⟨rfl, hrole⟩
      · rw [← hr2]
  · intro res uid
    unfold renderResourceActions
    by_cases ha : res.available = true
    · simp [ha]
    · have ha2 : res.available = false := by
        rwa [Bool.not_eq_true] at ha
      by_cases hb : (res.reserved_by == some uid) = true
      · rw [beq_iff_eq] at hb
        simp [ha2, hb]
      · have hb2 : (res.reserved_by == some uid) = false := by
          rwa [Bool.not_eq_true] at hb
        rw [beq_eq_false_iff_ne] at hb2
        simp [ha2, hb2]

/-- Witness for C8 (amended): scenario C — an admin force release of the
active reservation succeeds and records `released_by_admin`. -/
theorem release_permissions_and_client_controls_witness :
    (releaseReservation demoStateActive 1 demoAdmin true 10).2 = Except.ok demoReleased
  ∧ (demoAdmin.role = Role.admin ∧ demoReleased.released_by_admin = true) :=
  ⟨by decide,
   release_permissions_and_client_controls.2.1 demoStateActive 1 demoAdmin 10 demoReleased
     (by decide)⟩
